import Mathlib

/-!
# Signaling core of `wave` (src/main/main.go)

A shallow embedding of the signaling client: the wire structs with their
struct tags, the JSON member naming of Go's `encoding/json`, the join request
sent by `main`, the `OnICECandidate` handler and the receive loop
`readMessage`.

The peer connection, the websocket and `uuid.New` are collaborators: every
call made to them is recorded in order, and what they answer is an input of
the model.
-/

set_option linter.dupNamespace false

namespace Wave

/-! ## Collaborator types (pion/webrtc, sourcegraph/jsonrpc2) -/

/-- The kind of a session description (`webrtc.SDPType`); `unknown` is its
zero value. -/
inductive SDPType
  | unknown
  | offer
  | pranswer
  | answer
  | rollback
  deriving DecidableEq, Repr

/-- A session description (`webrtc.SessionDescription`): its kind and SDP text. -/
structure SessionDescription where
  Typ : SDPType
  SDP : String
  deriving DecidableEq, Repr

/-- A locally gathered candidate (`webrtc.ICECandidate`), kept as its text. -/
structure ICECandidate where
  Text : String
  deriving DecidableEq, Repr

/-- A candidate received from the peer (`webrtc.ICECandidateInit`), kept as its text. -/
structure ICECandidateInit where
  Text : String
  deriving DecidableEq, Repr

/-- The JSON values that occur as members of the params objects the program
marshals. A nil pointer marshals to `null`. -/
inductive JSONValue
  | null
  | number (n : Int)
  | text (s : String)
  | description (d : SessionDescription)
  | candidate (c : ICECandidate)
  deriving DecidableEq, Repr

/-- A marshalled JSON object (`json.RawMessage`): its members, in order. -/
abbrev RawMessage := List (String × JSONValue)

/-- The id of a JSON-RPC message (`jsonrpc2.ID`). -/
structure ID where
  Num : Nat
  Str : String
  IsString : Bool
  deriving DecidableEq, Repr

/-- An outbound JSON-RPC request (`jsonrpc2.Request`). -/
structure Request where
  Method : String
  Params : Option RawMessage
  ID : ID
  Notif : Bool
  deriving DecidableEq, Repr

/-! ## JSON member names: `reflect.StructTag.Lookup` and `encoding/json` -/

/-- A struct field as `encoding/json` sees it: its Go name and its raw tag. -/
structure StructField where
  Name : String
  Tag : String
  deriving DecidableEq, Repr

/-- The double quote character. -/
def dquote : Char := Char.ofNat 34

/-- The backslash character. -/
def bslash : Char := Char.ofNat 92

/-- Characters that `StructTag.Lookup` accepts in a key: anything above the
space except the colon, the double quote and DEL. -/
def isKeyChar (c : Char) : Bool :=
  decide (32 < c.toNat) && c != ':' && c != dquote && decide (c.toNat ≠ 127)

/-- Scan of the quoted value in `StructTag.Lookup`, entered after the opening
quote: the text up to the closing quote (a backslash takes the next character
with it) and what follows the closing quote; `none` when the quote is never
closed. -/
def scanQuoted : List Char → Option (List Char × List Char)
  | [] => none
  | c :: rest =>
    if c = dquote then some ([], rest)
    else if c = bslash then
      match rest with
      | [] => none
      | d :: rest2 => (scanQuoted rest2).map fun p => (c :: d :: p.1, p.2)
    else (scanQuoted rest).map fun p => (c :: p.1, p.2)

/-- The value `strconv.Unquote` gives for the text between the quotes when it
holds no escape sequence and no line break. Tags with escape sequences do not
occur in this program; they are outside the model and give `none`. -/
def unquote (v : List Char) : Option String :=
  if v.any (fun c => c == bslash || c == '\n') then none else some (String.mk v)

/-- The loop of `reflect.StructTag.Lookup`: skip spaces, scan a key up to the
colon, require `:"` after it, scan the quoted value, and return it when the
key is the one looked up. Any deviation from the `key:"value"` form ends the
loop without a value. -/
def lookupLoop (key : List Char) : Nat → List Char → Option String
  | 0, _ => none
  | fuel + 1, tag =>
    let tag := tag.dropWhile (fun c => c == ' ')
    if tag.isEmpty then none
    else
      let name := tag.takeWhile isKeyChar
      match tag.dropWhile isKeyChar with
      | c :: q :: more =>
        if name.isEmpty || c != ':' || q != dquote then none
        else
          match scanQuoted more with
          | none => none
          | some (value, rest) =>
            if key = name then unquote value else lookupLoop key fuel rest
      | _ => none

/-- Model of `reflect.StructTag.Lookup`. -/
def StructTag.Lookup (tag key : String) : Option String :=
  lookupLoop key.toList (tag.length + 1) tag.toList

/-- Model of `reflect.StructTag.Get`: the empty string when the key is absent. -/
def StructTag.Get (tag key : String) : String :=
  (StructTag.Lookup tag key).getD ""

/-- The name part of a json tag value (`parseTag`): the text before the first comma. -/
def parseTag (tag : String) : String :=
  String.mk (tag.toList.takeWhile (fun c => c != ','))

/-- Check of `encoding/json` that a tag name is usable (`isValidTag`):
non-empty, made of letters, digits and a fixed set of punctuation. Letters
and digits are the ASCII ones here. -/
def isValidTag (s : String) : Bool :=
  !s.toList.isEmpty &&
    s.toList.all fun c =>
      "!#$%&()*+-./:;<=>?@[]^_\x7b|\x7d~ ".toList.contains c || c.isAlphanum

/-- The member name `encoding/json` gives a struct field: `none` when the tag
is `-` (field skipped), the tag name when it is valid, else the Go field name. -/
def jsonName (f : StructField) : Option String :=
  let tag := StructTag.Get f.Tag "json"
  if tag = "-" then none
  else
    let name := parseTag tag
    let name := if isValidTag name then name else ""
    if name = "" then some f.Name else some name

/-- Marshalling of a struct value: one member per field that is not skipped,
in declaration order, under its json name. -/
def marshalStruct (fields : List (StructField × JSONValue)) : RawMessage :=
  fields.filterMap fun p => (jsonName p.1).map fun n => (n, p.2)

/-- A description pointer as a JSON value. -/
def descriptionValue : Option SessionDescription → JSONValue
  | none => JSONValue.null
  | some d => JSONValue.description d

/-- A candidate pointer as a JSON value. -/
def candidateValue : Option ICECandidate → JSONValue
  | none => JSONValue.null
  | some c => JSONValue.candidate c

/-! ## Wire structs of main.go (lines 27-57), tags as written in the source -/

/-- Struct `Candidate` (lines 27-30). -/
structure Candidate where
  Target : Int
  Candidate : Option ICECandidate
  deriving DecidableEq, Repr

/-- Struct `SendOffer` (lines 32-35). -/
structure SendOffer where
  SID : String
  Offer : Option SessionDescription
  deriving DecidableEq, Repr

/-- Struct `Response` (lines 37-42). -/
structure Response where
  Params : Option SessionDescription
  Result : Option SessionDescription
  Method : String
  Id : Nat
  deriving DecidableEq, Repr

/-- Struct `ResponseCandidate` (lines 43-46). -/
structure ResponseCandidate where
  Target : Int
  Candidate : Option ICECandidateInit
  deriving DecidableEq, Repr

/-- Struct `SendAnswer` (lines 48-51). -/
structure SendAnswer where
  SID : String
  Answer : Option SessionDescription
  deriving DecidableEq, Repr

/-- Struct `TrickleResponse` (lines 54-57). -/
structure TrickleResponse where
  Params : ResponseCandidate
  Method : String
  deriving DecidableEq, Repr

/-- Result of `json.Marshal` on a `Candidate`. -/
def marshalCandidate (v : Candidate) : RawMessage :=
  marshalStruct
    [(⟨"Target", "json:\"target\""⟩, JSONValue.number v.Target),
     (⟨"Candidate", "json:candidate"⟩, candidateValue v.Candidate)]

/-- Result of `json.Marshal` on a `SendOffer`. -/
def marshalSendOffer (v : SendOffer) : RawMessage :=
  marshalStruct
    [(⟨"SID", "json:sid"⟩, JSONValue.text v.SID),
     (⟨"Offer", "json:offer"⟩, descriptionValue v.Offer)]

/-- Result of `json.Marshal` on a `SendAnswer`. -/
def marshalSendAnswer (v : SendAnswer) : RawMessage :=
  marshalStruct
    [(⟨"SID", "json:sid"⟩, JSONValue.text v.SID),
     (⟨"Answer", "json:answer"⟩, descriptionValue v.Answer)]

/-! ## Collaborator calls, program state and inputs -/

/-- A call the program makes on a collaborator: the peer-connection
operations and `c.WriteMessage` on the websocket. -/
inductive Call
  | SetRemoteDescription (d : SessionDescription)
  | CreateAnswer
  | SetLocalDescription (d : SessionDescription)
  | AddICECandidate (c : ICECandidateInit)
  | WriteMessage (m : Request)
  deriving DecidableEq, Repr

/-- How a piece of the program ends: it goes on (`running`), it calls
`log.Fatal`, which logs the error and exits the process (`fatal`), or it
dereferences a nil pointer, a runtime panic that ends the process (`panicked`). -/
inductive Status
  | running
  | fatal
  | panicked
  deriving DecidableEq, Repr

/-- The mutable package-level state (lines 22-25) that the signaling code
reads and writes: `connectionID`, a uint64 whose zero value is 0. -/
structure State where
  connectionID : Nat
  deriving DecidableEq, Repr

/-- Package variable `remoteDescription` (line 25): declared with its zero
value nil and assigned nowhere in the program. -/
def remoteDescription : Option SessionDescription := none

/-- The session id both requests carry (lines 169 and 238). -/
def sid : String := "1819cd84-f0be-498f-bc49-19f1f7d2f585"

/-- An inbound websocket message, given by what the two `json.Unmarshal`
calls of `readMessage` make of it: the error flag and contents of `response`
(line 210; on an error the fields decoded so far are kept, the others are
zero) and the error flag and contents of `trickleResponse` (line 263). -/
structure Frame where
  responseErr : Bool
  response : Response
  trickleErr : Bool
  trickleResponse : TrickleResponse
  deriving DecidableEq, Repr

/-- What the collaborators answer while one message is handled: whether each
peer-connection call and the websocket write report an error, the answer
`CreateAnswer` returns, and the value of `uuid.New().ID()`. -/
structure Env where
  setRemoteDescriptionErr : Bool
  createAnswer : SessionDescription
  createAnswerErr : Bool
  setLocalDescriptionErr : Bool
  addICECandidateErr : Bool
  uuidID : Nat
  writeErr : Bool
  deriving DecidableEq, Repr

/-- Result of running a piece of the program: the state it leaves, the calls
it made in order, and how it ended. -/
structure Outcome where
  state : State
  calls : List Call
  status : Status
  deriving DecidableEq, Repr

/-- Status after a call whose error, when there is one, is passed to `log.Fatal`. -/
def fatalIf (err : Bool) : Status :=
  if err then Status.fatal else Status.running

/-- Conversion `uint64(connectionUUID.ID())`: `ID` is a uint32. -/
def newConnectionID (uuidID : Nat) : Nat :=
  uuidID % 2 ^ 32

/-! ## main: the join request (lines 167-196) and the ICE handler (lines 135-161) -/

/-- The join request built at lines 167-185 from the local description. -/
def joinRequest (localDescription : Option SessionDescription) (connectionID : Nat) : Request :=
  { Method := "join"
    Params := some (marshalSendOffer { Offer := localDescription, SID := sid })
    ID := { IsString := false, Num := connectionID, Str := "" }
    Notif := false }

/-- Lines 167-196 of `main`: marshal the offer, draw the connection id, build
the join request and write it. -/
def sendJoin (s : State) (localDescription : Option SessionDescription) (e : Env) : Outcome :=
  let connectionID := newConnectionID e.uuidID
  { state := { s with connectionID := connectionID }
    calls := [Call.WriteMessage (joinRequest localDescription connectionID)]
    status := fatalIf e.writeErr }

/-- The trickle request built at lines 137-148 for a gathered candidate. The
`ID` and `Notif` fields are left at their zero values. -/
def trickleRequest (candidate : ICECandidate) : Request :=
  { Method := "trickle"
    Params := some (marshalCandidate { Candidate := some candidate, Target := 0 })
    ID := { IsString := false, Num := 0, Str := "" }
    Notif := false }

/-- The handler registered with `OnICECandidate` (lines 135-161), called with
a gathered candidate or with nil at the end of gathering. `json.Marshal` and
`Encode` are given plain struct values and report no error; the write may. -/
def onICECandidate (candidate : Option ICECandidate) (writeErr : Bool) : List Call × Status :=
  match candidate with
  | none => ([], Status.running)
  | some c => ([Call.WriteMessage (trickleRequest c)], fatalIf writeErr)

/-- A sequence of `OnICECandidate` callbacks, each with the result of its
write; the process ends at the first failed write. -/
def iceCallbacks : List (Option ICECandidate × Bool) → List Call × Status
  | [] => ([], Status.running)
  | (candidate, writeErr) :: rest =>
    match onICECandidate candidate writeErr with
    | (calls, Status.running) => (calls ++ (iceCallbacks rest).1, (iceCallbacks rest).2)
    | r => r

/-! ## readMessage (lines 201-272) -/

/-- The answer request built at lines 236-249. -/
def answerRequest (connectionID : Nat) : Request :=
  { Method := "answer"
    Params := some (marshalSendAnswer { Answer := remoteDescription, SID := sid })
    ID := { IsString := false, Num := connectionID, Str := "" }
    Notif := false }

/-- Body of the receive loop for a message that was read (lines 208-270). An
unmarshal error of `response` is only logged (line 212) and the dispatch
goes on with what `response` holds. Dereferencing a nil `Result`, `Params` or
`Candidate` (lines 216, 222, 266) is a panic. The error of `json.Marshal` at
line 236 is overwritten unread, and `Encode` reports none on the request. -/
def handleMessage (s : State) (f : Frame) (e : Env) : Outcome :=
  let response := f.response
  if response.Id = s.connectionID then
    match response.Result with
    | none => { state := s, calls := [], status := Status.panicked }
    | some result =>
      { state := s
        calls := [Call.SetRemoteDescription result]
        status := fatalIf e.setRemoteDescriptionErr }
  else if response.Id ≠ 0 ∧ response.Method = "offer" then
    match response.Params with
    | none => { state := s, calls := [], status := Status.panicked }
    | some params =>
      if e.setRemoteDescriptionErr then
        { state := s, calls := [Call.SetRemoteDescription params], status := Status.fatal }
      else if e.createAnswerErr then
        { state := s
          calls := [Call.SetRemoteDescription params, Call.CreateAnswer]
          status := Status.fatal }
      else if e.setLocalDescriptionErr then
        { state := s
          calls := [Call.SetRemoteDescription params, Call.CreateAnswer,
                    Call.SetLocalDescription e.createAnswer]
          status := Status.fatal }
      else
        let connectionID := newConnectionID e.uuidID
        { state := { s with connectionID := connectionID }
          calls := [Call.SetRemoteDescription params, Call.CreateAnswer,
                    Call.SetLocalDescription e.createAnswer,
                    Call.WriteMessage (answerRequest connectionID)]
          status := fatalIf e.writeErr }
  else if response.Method = "trickle" then
    if f.trickleErr then { state := s, calls := [], status := Status.fatal }
    else
      match f.trickleResponse.Params.Candidate with
      | none => { state := s, calls := [], status := Status.panicked }
      | some candidate =>
        { state := s
          calls := [Call.AddICECandidate candidate]
          status := fatalIf e.addICECandidateErr }
  else { state := s, calls := [], status := Status.running }

/-- The receive loop on the messages that arrive: each item is the result of
`c.ReadMessage` (`none` for a read error, fatal at line 206) with the
collaborators' answers while it is handled. The loop handles the messages in
order as long as the process runs; with no message left it waits in
`ReadMessage` (`running`). -/
def readMessage (s : State) : List (Option Frame × Env) → Outcome
  | [] => { state := s, calls := [], status := Status.running }
  | (none, _) :: _ => { state := s, calls := [], status := Status.fatal }
  | (some f, e) :: rest =>
    let o := handleMessage s f e
    match o.status with
    | Status.running =>
      let o2 := readMessage o.state rest
      { state := o2.state, calls := o.calls ++ o2.calls, status := o2.status }
    | _ => o

/-- Test of the second branch of the dispatch (lines 215 and 221): the id is
not the outstanding one, is not zero, and the method is `offer`. -/
def takesOfferBranch (s : State) (f : Frame) : Bool :=
  decide (f.response.Id ≠ s.connectionID) && decide (f.response.Id ≠ 0) &&
    decide (f.response.Method = "offer")

/-! ## Concrete messages used in the examples -/

/-- All collaborator calls succeed; `CreateAnswer` returns an answer and the
uuid id is 99. -/
def quietEnv : Env :=
  { setRemoteDescriptionErr := false
    createAnswer := { Typ := SDPType.answer, SDP := "v=0 local" }
    createAnswerErr := false
    setLocalDescriptionErr := false
    addICECandidateErr := false
    uuidID := 99
    writeErr := false }

/-- The message `{"method":"trickle","params":{"target":0,"candidate":{"candidate":c}}}`.
Its params object also fills `response.Params`, with no member a session
description knows. -/
def trickleFrame (c : String) : Frame :=
  { responseErr := false
    response :=
      { Params := some { Typ := SDPType.unknown, SDP := "" }
        Result := none, Method := "trickle", Id := 0 }
    trickleErr := false
    trickleResponse :=
      { Params := { Target := 0, Candidate := some { Text := c } }, Method := "trickle" } }

/-- The message `{"id":id,"result":{"type":"answer","sdp":sdp}}`. -/
def resultFrame (id : Nat) (sdp : String) : Frame :=
  { responseErr := false
    response :=
      { Params := none, Result := some { Typ := SDPType.answer, SDP := sdp }
        Method := "", Id := id }
    trickleErr := false
    trickleResponse := { Params := { Target := 0, Candidate := none }, Method := "" } }

/-- The message `{"method":"offer","id":id,"params":{"type":"offer","sdp":sdp}}`. -/
def offerFrame (id : Nat) (sdp : String) : Frame :=
  { responseErr := false
    response :=
      { Params := some { Typ := SDPType.offer, SDP := sdp }, Result := none
        Method := "offer", Id := id }
    trickleErr := false
    trickleResponse := { Params := { Target := 0, Candidate := none }, Method := "offer" } }

/-- A message that is not JSON, such as the text `hello`: both unmarshal
calls report an error and leave their target at its zero value. -/
def garbageFrame : Frame :=
  { responseErr := true
    response := { Params := none, Result := none, Method := "", Id := 0 }
    trickleErr := true
    trickleResponse := { Params := { Target := 0, Candidate := none }, Method := "" } }

/-! ## Lemmas on the marshalled params and on the dispatch -/

theorem jsonName_SID : jsonName ⟨"SID", "json:sid"⟩ = some "SID" := by decide

theorem jsonName_Offer : jsonName ⟨"Offer", "json:offer"⟩ = some "Offer" := by decide

theorem jsonName_Answer : jsonName ⟨"Answer", "json:answer"⟩ = some "Answer" := by decide

theorem jsonName_Target : jsonName ⟨"Target", "json:\"target\""⟩ = some "target" := by decide

theorem jsonName_Candidate :
    jsonName ⟨"Candidate", "json:candidate"⟩ = some "Candidate" := by decide

theorem marshalSendOffer_eq (v : SendOffer) :
    marshalSendOffer v
      = [("SID", JSONValue.text v.SID), ("Offer", descriptionValue v.Offer)] := by
  simp [marshalSendOffer, marshalStruct, jsonName_SID, jsonName_Offer]

theorem marshalSendAnswer_eq (v : SendAnswer) :
    marshalSendAnswer v
      = [("SID", JSONValue.text v.SID), ("Answer", descriptionValue v.Answer)] := by
  simp [marshalSendAnswer, marshalStruct, jsonName_SID, jsonName_Answer]

theorem marshalCandidate_eq (v : Candidate) :
    marshalCandidate v
      = [("target", JSONValue.number v.Target), ("Candidate", candidateValue v.Candidate)] := by
  simp [marshalCandidate, marshalStruct, jsonName_Target, jsonName_Candidate]

theorem handleMessage_match (s : State) (f : Frame) (e : Env) (R : SessionDescription)
    (hid : f.response.Id = s.connectionID) (hres : f.response.Result = some R) :
    handleMessage s f e
      = { state := s
          calls := [Call.SetRemoteDescription R]
          status := fatalIf e.setRemoteDescriptionErr } := by
  simp [handleMessage, hid, hres]

theorem handleMessage_trickle (s : State) (f : Frame) (e : Env) (c : ICECandidateInit)
    (hm : f.response.Method = "trickle") (hid : f.response.Id ≠ s.connectionID)
    (ht : f.trickleErr = false) (hc : f.trickleResponse.Params.Candidate = some c) :
    handleMessage s f e
      = { state := s
          calls := [Call.AddICECandidate c]
          status := fatalIf e.addICECandidateErr } := by
  have hne : ¬ ("trickle" = "offer") := by decide
  simp [handleMessage, hid, hm, ht, hc, hne]

theorem handleMessage_state (s : State) (f : Frame) (e : Env)
    (h : takesOfferBranch s f = false) : (handleMessage s f e).state = s := by
  unfold handleMessage
  by_cases h1 : f.response.Id = s.connectionID
  · simp only [h1, if_true]
    split <;> rfl
  · have h2 : ¬ (f.response.Id ≠ 0 ∧ f.response.Method = "offer") := by
      intro h2
      simp [takesOfferBranch, h1, h2.1, h2.2] at h
    simp only [h1, h2, if_false]
    split_ifs <;> (try split) <;> rfl

theorem readMessage_state (s : State) (xs : List (Frame × Env))
    (h : ∀ p ∈ xs, takesOfferBranch s p.1 = false) :
    (readMessage s (xs.map fun p => (some p.1, p.2))).state = s := by
  induction xs with
  | nil => rfl
  | cons p rest ih =>
    have hp := handleMessage_state s p.1 p.2 (h p (List.mem_cons_self p rest))
    have ih2 := ih fun q hq => h q (List.mem_cons_of_mem p hq)
    simp only [List.map_cons, readMessage]
    cases hst : (handleMessage s p.1 p.2).status with
    | running => simp only [hp, ih2]
    | fatal => simp only [hp]
    | panicked => simp only [hp]

theorem readMessage_append (s : State) (xs ys : List (Option Frame × Env))
    (h : (readMessage s xs).status = Status.running) :
    readMessage s (xs ++ ys)
      = { state := (readMessage (readMessage s xs).state ys).state
          calls := (readMessage s xs).calls ++ (readMessage (readMessage s xs).state ys).calls
          status := (readMessage (readMessage s xs).state ys).status } := by
  induction xs generalizing s with
  | nil => simp [readMessage]
  | cons x rest ih =>
    obtain ⟨r, e⟩ := x
    cases r with
    | none => simp [readMessage] at h
    | some f =>
      cases hst : (handleMessage s f e).status with
      | running =>
        simp only [List.cons_append, readMessage, hst] at h ⊢
        rw [show rest.append ys = rest ++ ys from rfl, ih _ h]
        simp
      | fatal => simp [readMessage, hst] at h
      | panicked => simp [readMessage, hst] at h

/-! ## C1: remote trickle is applied on arrival, not buffered -/

/-- C1, counterexample: with join id 7 outstanding and no remote description
set yet, two trickle messages followed by the answer response make
`readMessage` call `AddICECandidate` twice before `SetRemoteDescription`;
nothing is held back and nothing is replayed after the description is set. -/
theorem trickle_before_answer_not_buffered :
    (readMessage ⟨7⟩
        [(some (trickleFrame "candidate:1"), quietEnv),
         (some (trickleFrame "candidate:2"), quietEnv),
         (some (resultFrame 7 "v=0 remote"), quietEnv)]).calls
      = [Call.AddICECandidate ⟨"candidate:1"⟩,
         Call.AddICECandidate ⟨"candidate:2"⟩,
         Call.SetRemoteDescription ⟨SDPType.answer, "v=0 remote"⟩] := by
  decide

/-- C1, amended: in every state, whether or not a remote description has
been set, a run of trickle messages (method `trickle`, id other than the
outstanding one, a candidate present, every `AddICECandidate` succeeding)
makes `readMessage` pass each candidate to `AddICECandidate` when it arrives:
the calls are exactly the candidates, once each, in arrival order, and the
loop goes on with the state unchanged. -/
theorem trickle_applied_on_arrival (s : State) (fs : List (Frame × Env))
    (h : ∀ p ∈ fs, p.1.response.Method = "trickle" ∧ p.1.response.Id ≠ s.connectionID ∧
      p.1.trickleErr = false ∧ p.1.trickleResponse.Params.Candidate ≠ none ∧
      p.2.addICECandidateErr = false) :
    readMessage s (fs.map fun p => (some p.1, p.2))
      = { state := s
          calls := fs.filterMap fun p =>
            p.1.trickleResponse.Params.Candidate.map Call.AddICECandidate
          status := Status.running } := by
  induction fs with
  | nil => simp [readMessage]
  | cons p rest ih =>
    obtain ⟨hm, hid, ht, hc, he⟩ := h p (List.mem_cons_self p rest)
    obtain ⟨c, hc2⟩ := Option.ne_none_iff_exists'.mp hc
    have ih2 := ih fun q hq => h q (List.mem_cons_of_mem p hq)
    simp only [List.map_cons, readMessage, handleMessage_trickle s p.1 p.2 c hm hid ht hc2,
      fatalIf, he, ih2, List.filterMap_cons, hc2, Option.map_some']
    simp

/-- C1, amended, at two trickle messages with join id 7 outstanding. -/
theorem trickle_applied_on_arrival_witness :
    (∀ p ∈ [(trickleFrame "candidate:1", quietEnv), (trickleFrame "candidate:2", quietEnv)],
      p.1.response.Method = "trickle" ∧ p.1.response.Id ≠ (⟨7⟩ : State).connectionID ∧
      p.1.trickleErr = false ∧ p.1.trickleResponse.Params.Candidate ≠ none ∧
      p.2.addICECandidateErr = false) ∧
    readMessage ⟨7⟩
        ([(trickleFrame "candidate:1", quietEnv), (trickleFrame "candidate:2", quietEnv)].map
          fun p => (some p.1, p.2))
      = { state := ⟨7⟩
          calls :=
            [(trickleFrame "candidate:1", quietEnv), (trickleFrame "candidate:2", quietEnv)].filterMap
              fun p => p.1.trickleResponse.Params.Candidate.map Call.AddICECandidate
          status := Status.running } :=
  ⟨by decide,
   trickle_applied_on_arrival ⟨7⟩
     [(trickleFrame "candidate:1", quietEnv), (trickleFrame "candidate:2", quietEnv)] (by decide)⟩

/-! ## C2: the answer request carries the never-assigned remoteDescription -/

/-- C2, the code at an offer with id 42 while join id 7 is outstanding and
every call succeeding: `CreateAnswer` returns the description `v=0 local`,
which is set as local description, and the answer request written carries
the members `SID` and `Answer`, the latter `null` rather than that
description; the params of the answer request are these for every id. -/
theorem answer_request_carries_null :
    (∀ connectionID, (answerRequest connectionID).Params
      = some [("SID", JSONValue.text sid), ("Answer", JSONValue.null)]) ∧
    (handleMessage ⟨7⟩ (offerFrame 42 "v=0 remote") quietEnv).calls
      = [Call.SetRemoteDescription ⟨SDPType.offer, "v=0 remote"⟩,
         Call.CreateAnswer,
         Call.SetLocalDescription ⟨SDPType.answer, "v=0 local"⟩,
         Call.WriteMessage
           { Method := "answer"
             Params := some [("SID", JSONValue.text sid), ("Answer", JSONValue.null)]
             ID := { IsString := false, Num := 99, Str := "" }
             Notif := false }] := by
  refine ⟨fun _ => ?_, by decide⟩
  simp [answerRequest, marshalSendAnswer_eq, remoteDescription, descriptionValue]

/-! ## C3: the outstanding id is not consumed by its response -/

/-- C3, counterexample: with join id 7 outstanding, the answer response
followed by a duplicate with the same id makes `readMessage` call
`SetRemoteDescription` twice; the duplicate is not dropped. -/
theorem duplicate_response_sets_remote_again :
    (readMessage ⟨7⟩
        [(some (resultFrame 7 "v=0 remote"), quietEnv),
         (some (resultFrame 7 "v=0 remote"), quietEnv)]).calls
      = [Call.SetRemoteDescription ⟨SDPType.answer, "v=0 remote"⟩,
         Call.SetRemoteDescription ⟨SDPType.answer, "v=0 remote"⟩] := by
  decide

/-- C3, amended: handling a response whose id equals the outstanding id
leaves that id outstanding. After such a response, and after any further
messages none of which is handled as an offer, as long as the process is
still running, a message with the same id and a result `R2` is handled as a
response again: `SetRemoteDescription R2` is called for it, after the call
for the first response and the calls for the messages in between, and the id
is still outstanding afterwards. -/
theorem response_id_stays_outstanding (s : State) (f1 f2 : Frame) (e1 e2 : Env)
    (R1 R2 : SessionDescription) (mid : List (Frame × Env))
    (hid1 : f1.response.Id = s.connectionID) (hres1 : f1.response.Result = some R1)
    (hmid : ∀ p ∈ mid, takesOfferBranch s p.1 = false)
    (hrun : (readMessage s ((some f1, e1) :: mid.map fun p => (some p.1, p.2))).status
      = Status.running)
    (hid2 : f2.response.Id = s.connectionID) (hres2 : f2.response.Result = some R2) :
    readMessage s (((some f1, e1) :: mid.map fun p => (some p.1, p.2)) ++ [(some f2, e2)])
      = { state := s
          calls := Call.SetRemoteDescription R1 ::
            ((readMessage s (mid.map fun p => (some p.1, p.2))).calls ++
              [Call.SetRemoteDescription R2])
          status := fatalIf e2.setRemoteDescriptionErr } := by
  have h1 : takesOfferBranch s f1 = false := by simp [takesOfferBranch, hid1]
  have hall : ∀ p ∈ (f1, e1) :: mid, takesOfferBranch s p.1 = false := by
    intro p hp
    rcases List.mem_cons.mp hp with rfl | hp
    · exact h1
    · exact hmid p hp
  have hst := readMessage_state s ((f1, e1) :: mid) hall
  simp only [List.map_cons] at hst
  rw [readMessage_append s _ _ hrun, hst]
  have hok : e1.setRemoteDescriptionErr = false := by
    cases h : e1.setRemoteDescriptionErr with
    | false => rfl
    | true =>
      simp [readMessage, handleMessage_match s f1 e1 R1 hid1 hres1, fatalIf, h] at hrun
  have hcalls : (readMessage s ((some f1, e1) :: mid.map fun p => (some p.1, p.2))).calls
      = Call.SetRemoteDescription R1 :: (readMessage s (mid.map fun p => (some p.1, p.2))).calls := by
    simp [readMessage, handleMessage_match s f1 e1 R1 hid1 hres1, fatalIf, hok]
  rw [hcalls]
  simp only [readMessage, handleMessage_match s f2 e2 R2 hid2 hres2]
  cases e2.setRemoteDescriptionErr <;> simp [fatalIf]

/-- C3, amended, at a response with id 7, a trickle message, and a duplicate
of the response. -/
theorem response_id_stays_outstanding_witness :
    ((resultFrame 7 "v=0 remote").response.Id = (⟨7⟩ : State).connectionID ∧
      (resultFrame 7 "v=0 remote").response.Result = some ⟨SDPType.answer, "v=0 remote"⟩ ∧
      (∀ p ∈ [(trickleFrame "candidate:1", quietEnv)], takesOfferBranch ⟨7⟩ p.1 = false) ∧
      (readMessage ⟨7⟩ ((some (resultFrame 7 "v=0 remote"), quietEnv) ::
          [(trickleFrame "candidate:1", quietEnv)].map fun p => (some p.1, p.2))).status
        = Status.running) ∧
    readMessage ⟨7⟩
        (((some (resultFrame 7 "v=0 remote"), quietEnv) ::
            [(trickleFrame "candidate:1", quietEnv)].map fun p => (some p.1, p.2)) ++
          [(some (resultFrame 7 "v=0 remote"), quietEnv)])
      = { state := ⟨7⟩
          calls := Call.SetRemoteDescription ⟨SDPType.answer, "v=0 remote"⟩ ::
            ((readMessage ⟨7⟩
                ([(trickleFrame "candidate:1", quietEnv)].map fun p => (some p.1, p.2))).calls ++
              [Call.SetRemoteDescription ⟨SDPType.answer, "v=0 remote"⟩])
          status := fatalIf quietEnv.setRemoteDescriptionErr } :=
  ⟨by decide,
   response_id_stays_outstanding ⟨7⟩ (resultFrame 7 "v=0 remote") (resultFrame 7 "v=0 remote")
     quietEnv quietEnv ⟨SDPType.answer, "v=0 remote"⟩ ⟨SDPType.answer, "v=0 remote"⟩
     [(trickleFrame "candidate:1", quietEnv)]
     (by decide) (by decide) (by decide) (by decide) (by decide) (by decide)⟩

/-! ## C4: an undecodable message is dispatched all the same -/

/-- C4, the code at a message that is not JSON, read while `connectionID`
is still 0: the zero id of the undecoded `response` equals `connectionID`,
the nil `Result` is dereferenced and the process panics; the loop does not
go on to the message that follows. -/
theorem undecodable_message_panics_before_join :
    garbageFrame.responseErr = true ∧
    handleMessage ⟨0⟩ garbageFrame quietEnv
        = { state := ⟨0⟩, calls := [], status := Status.panicked } ∧
    readMessage ⟨0⟩ [(some garbageFrame, quietEnv), (some (trickleFrame "candidate:1"), quietEnv)]
        = { state := ⟨0⟩, calls := [], status := Status.panicked } := by
  decide

/-! ## C5: the end-of-gathering sentinel is not sent -/

/-- C5: the `OnICECandidate` handler makes no call for the nil sentinel; for
a candidate it makes exactly one call, the write of a request with method
`trickle` whose params hold target 0 and that candidate; and over every
sequence of callbacks whose writes (one per non-nil candidate) succeed, the calls are exactly the trickle
requests of the non-nil candidates, in order, with the process still running. -/
theorem sentinel_never_transmitted (cs : List (Option ICECandidate × Bool))
    (hw : ∀ p ∈ cs, p.1 ≠ none → p.2 = false) :
    (∀ w, onICECandidate none w = ([], Status.running)) ∧
    (∀ c w, ∃ m, (onICECandidate (some c) w).1 = [Call.WriteMessage m] ∧
      m.Method = "trickle" ∧
      m.Params = some [("target", JSONValue.number 0), ("Candidate", JSONValue.candidate c)]) ∧
    iceCallbacks cs
      = ((cs.filterMap Prod.fst).map fun c => Call.WriteMessage (trickleRequest c),
         Status.running) := by
  refine ⟨fun _ => rfl, fun c w => ⟨trickleRequest c, rfl, rfl, ?_⟩, ?_⟩
  · simp [trickleRequest, marshalCandidate_eq, candidateValue]
  · induction cs with
    | nil => rfl
    | cons p rest ih =>
      obtain ⟨candidate, w⟩ := p
      have ih2 := ih fun q hq => hw q (List.mem_cons_of_mem _ hq)
      cases candidate with
      | none => simp [iceCallbacks, onICECandidate, ih2]
      | some c =>
        have hw0 : w = false := hw (some c, w) (List.mem_cons_self _ _) (by simp)
        simp [iceCallbacks, onICECandidate, fatalIf, ih2, hw0]

/-- C5 at a gathering that yields two candidates and then the nil sentinel. -/
theorem sentinel_never_transmitted_witness :
    (∀ p ∈ [(some (⟨"candidate:1"⟩ : ICECandidate), false), (some ⟨"candidate:2"⟩, false),
        (none, true)], p.1 ≠ none → p.2 = false) ∧
    ((∀ w, onICECandidate none w = ([], Status.running)) ∧
    (∀ c w, ∃ m, (onICECandidate (some c) w).1 = [Call.WriteMessage m] ∧
      m.Method = "trickle" ∧
      m.Params = some [("target", JSONValue.number 0), ("Candidate", JSONValue.candidate c)]) ∧
    iceCallbacks [(some (⟨"candidate:1"⟩ : ICECandidate), false), (some ⟨"candidate:2"⟩, false),
        (none, true)]
      = (([(some (⟨"candidate:1"⟩ : ICECandidate), false), (some ⟨"candidate:2"⟩, false),
            (none, true)].filterMap Prod.fst).map fun c => Call.WriteMessage (trickleRequest c),
         Status.running)) :=
  ⟨by decide,
   sentinel_never_transmitted
     [(some ⟨"candidate:1"⟩, false), (some ⟨"candidate:2"⟩, false), (none, true)] (by decide)⟩

/-! ## C6: a remote offer is answered in order, under a fresh id -/

/-- C6: for an offer message (method `offer`, id non-zero and other than the
outstanding one, params `P`) with every peer-connection call succeeding,
`readMessage` makes exactly these calls in this order:
`SetRemoteDescription P`, `CreateAnswer`, `SetLocalDescription` of the created
answer, and one write of a request whose method is `answer` and whose numeric
id is the newly drawn connection id, which is also the outstanding id
afterwards. -/
theorem offer_answered_in_order (s : State) (f : Frame) (e : Env) (P : SessionDescription)
    (hid0 : f.response.Id ≠ 0) (hid : f.response.Id ≠ s.connectionID)
    (hm : f.response.Method = "offer") (hp : f.response.Params = some P)
    (h1 : e.setRemoteDescriptionErr = false) (h2 : e.createAnswerErr = false)
    (h3 : e.setLocalDescriptionErr = false) :
    ∃ m : Request,
      (handleMessage s f e).calls
        = [Call.SetRemoteDescription P, Call.CreateAnswer,
           Call.SetLocalDescription e.createAnswer, Call.WriteMessage m] ∧
      m.Method = "answer" ∧ m.ID.IsString = false ∧ m.ID.Num = newConnectionID e.uuidID ∧
      (handleMessage s f e).state.connectionID = m.ID.Num := by
  refine ⟨answerRequest (newConnectionID e.uuidID), ?_, rfl, rfl, rfl, ?_⟩ <;>
    simp [handleMessage, hid0, hid, hm, hp, h1, h2, h3, answerRequest]

/-- C6 at an offer with id 42 while join id 7 is outstanding. -/
theorem offer_answered_in_order_witness :
    ((offerFrame 42 "v=0 remote").response.Id ≠ 0 ∧
      (offerFrame 42 "v=0 remote").response.Id ≠ (⟨7⟩ : State).connectionID ∧
      (offerFrame 42 "v=0 remote").response.Method = "offer" ∧
      (offerFrame 42 "v=0 remote").response.Params = some ⟨SDPType.offer, "v=0 remote"⟩ ∧
      quietEnv.setRemoteDescriptionErr = false ∧ quietEnv.createAnswerErr = false ∧
      quietEnv.setLocalDescriptionErr = false) ∧
    ∃ m : Request,
      (handleMessage ⟨7⟩ (offerFrame 42 "v=0 remote") quietEnv).calls
        = [Call.SetRemoteDescription ⟨SDPType.offer, "v=0 remote"⟩, Call.CreateAnswer,
           Call.SetLocalDescription quietEnv.createAnswer, Call.WriteMessage m] ∧
      m.Method = "answer" ∧ m.ID.IsString = false ∧ m.ID.Num = newConnectionID quietEnv.uuidID ∧
      (handleMessage ⟨7⟩ (offerFrame 42 "v=0 remote") quietEnv).state.connectionID = m.ID.Num :=
  ⟨by decide,
   offer_answered_in_order ⟨7⟩ (offerFrame 42 "v=0 remote") quietEnv ⟨SDPType.offer, "v=0 remote"⟩
     (by decide) (by decide) (by decide) (by decide) (by decide) (by decide) (by decide)⟩

/-! ## C7: the join request and its response -/

/-- C7: `main` writes exactly one request, with method `join` and a numeric
id equal to the connection id it has just drawn and stored; and for every
message whose id equals that outstanding id and whose result is `R`,
`readMessage` calls `SetRemoteDescription R` once and makes no other call, so
it makes no other peer-connection call and writes nothing. -/
theorem join_request_and_response (s : State) (localDescription : Option SessionDescription)
    (e0 e : Env) (f : Frame) (R : SessionDescription)
    (hid : f.response.Id = (sendJoin s localDescription e0).state.connectionID)
    (hres : f.response.Result = some R) :
    (∃ m : Request,
      (sendJoin s localDescription e0).calls = [Call.WriteMessage m] ∧
      m.Method = "join" ∧ m.ID.IsString = false ∧
      m.ID.Num = (sendJoin s localDescription e0).state.connectionID ∧
      (sendJoin s localDescription e0).state.connectionID = newConnectionID e0.uuidID) ∧
    (handleMessage (sendJoin s localDescription e0).state f e).calls
      = [Call.SetRemoteDescription R] ∧
    (handleMessage (sendJoin s localDescription e0).state f e).state
      = (sendJoin s localDescription e0).state := by
  refine ⟨⟨joinRequest localDescription (newConnectionID e0.uuidID), rfl, rfl, rfl, rfl, rfl⟩,
    ?_, ?_⟩ <;>
    rw [handleMessage_match _ f e R hid hres]

/-- C7 at a join with uuid id 99 and the response with id 99. -/
theorem join_request_and_response_witness :
    ((resultFrame 99 "v=0 remote").response.Id
        = (sendJoin ⟨0⟩ (some ⟨SDPType.offer, "v=0 local"⟩) quietEnv).state.connectionID ∧
      (resultFrame 99 "v=0 remote").response.Result = some ⟨SDPType.answer, "v=0 remote"⟩) ∧
    ((∃ m : Request,
      (sendJoin ⟨0⟩ (some ⟨SDPType.offer, "v=0 local"⟩) quietEnv).calls = [Call.WriteMessage m] ∧
      m.Method = "join" ∧ m.ID.IsString = false ∧
      m.ID.Num = (sendJoin ⟨0⟩ (some ⟨SDPType.offer, "v=0 local"⟩) quietEnv).state.connectionID ∧
      (sendJoin ⟨0⟩ (some ⟨SDPType.offer, "v=0 local"⟩) quietEnv).state.connectionID
        = newConnectionID quietEnv.uuidID) ∧
    (handleMessage (sendJoin ⟨0⟩ (some ⟨SDPType.offer, "v=0 local"⟩) quietEnv).state
        (resultFrame 99 "v=0 remote") quietEnv).calls
      = [Call.SetRemoteDescription ⟨SDPType.answer, "v=0 remote"⟩] ∧
    (handleMessage (sendJoin ⟨0⟩ (some ⟨SDPType.offer, "v=0 local"⟩) quietEnv).state
        (resultFrame 99 "v=0 remote") quietEnv).state
      = (sendJoin ⟨0⟩ (some ⟨SDPType.offer, "v=0 local"⟩) quietEnv).state) :=
  ⟨by decide,
   join_request_and_response ⟨0⟩ (some ⟨SDPType.offer, "v=0 local"⟩) quietEnv quietEnv
     (resultFrame 99 "v=0 remote") ⟨SDPType.answer, "v=0 remote"⟩ (by decide) (by decide)⟩

/-! ## C8: an error of SetRemoteDescription ends the process -/

/-- C8, counterexample: with join id 7 outstanding, when
`SetRemoteDescription` reports an error on the matching response the process
ends in `log.Fatal`, and the trickle message that arrives next is not
handled. -/
theorem set_remote_error_ends_process :
    readMessage ⟨7⟩
        [(some (resultFrame 7 "v=0 remote"), { quietEnv with setRemoteDescriptionErr := true }),
         (some (trickleFrame "candidate:1"), quietEnv)]
      = { state := ⟨7⟩
          calls := [Call.SetRemoteDescription ⟨SDPType.answer, "v=0 remote"⟩]
          status := Status.fatal } := by
  decide

/-- C8, amended: when `SetRemoteDescription` reports an error while
`readMessage` handles the response that matches the outstanding id, the
error is passed to `log.Fatal`, which reports it and ends the process: that
call is the last one made and no later message is handled. -/
theorem set_remote_error_is_fatal (s : State) (f : Frame) (e : Env) (R : SessionDescription)
    (rest : List (Option Frame × Env))
    (hid : f.response.Id = s.connectionID) (hres : f.response.Result = some R)
    (herr : e.setRemoteDescriptionErr = true) :
    readMessage s ((some f, e) :: rest)
      = { state := s, calls := [Call.SetRemoteDescription R], status := Status.fatal } := by
  simp [readMessage, handleMessage_match s f e R hid hres, fatalIf, herr]

/-- C8, amended, at a failing response with id 7 followed by an offer. -/
theorem set_remote_error_is_fatal_witness :
    ((resultFrame 7 "v=0 remote").response.Id = (⟨7⟩ : State).connectionID ∧
      (resultFrame 7 "v=0 remote").response.Result = some ⟨SDPType.answer, "v=0 remote"⟩ ∧
      ({ quietEnv with setRemoteDescriptionErr := true } : Env).setRemoteDescriptionErr = true) ∧
    readMessage ⟨7⟩
        ((some (resultFrame 7 "v=0 remote"), { quietEnv with setRemoteDescriptionErr := true }) ::
          [(some (offerFrame 42 "v=0 again"), quietEnv)])
      = { state := ⟨7⟩
          calls := [Call.SetRemoteDescription ⟨SDPType.answer, "v=0 remote"⟩]
          status := Status.fatal } :=
  ⟨by decide,
   set_remote_error_is_fatal ⟨7⟩ (resultFrame 7 "v=0 remote")
     { quietEnv with setRemoteDescriptionErr := true } ⟨SDPType.answer, "v=0 remote"⟩
     [(some (offerFrame 42 "v=0 again"), quietEnv)] (by decide) (by decide) (by decide)⟩

/-! ## C9: member names of the join params -/

/-- C9, the code at every session id and offer: the tags `json:sid` and
`json:offer` lack the quotes `encoding/json` looks for, so the marshalled
`SendOffer` has the members `SID` and `Offer`, the Go field names, and no
member named `sid` or `offer`; these are the params of the join request. -/
theorem join_params_member_names (v : SendOffer) (connectionID : Nat) :
    marshalSendOffer v = [("SID", JSONValue.text v.SID), ("Offer", descriptionValue v.Offer)] ∧
    (marshalSendOffer v).map Prod.fst = ["SID", "Offer"] ∧
    "sid" ∉ (marshalSendOffer v).map Prod.fst ∧
    "offer" ∉ (marshalSendOffer v).map Prod.fst ∧
    (joinRequest v.Offer connectionID).Params
      = some [("SID", JSONValue.text sid), ("Offer", descriptionValue v.Offer)] := by
  have hn : (marshalSendOffer v).map Prod.fst = ["SID", "Offer"] := by
    simp [marshalSendOffer_eq]
  refine ⟨marshalSendOffer_eq v, hn, ?_, ?_, ?_⟩
  · rw [hn]; decide
  · rw [hn]; decide
  · simp [joinRequest, marshalSendOffer_eq]

/-! ## C10: the id match comes before the method -/

/-- C10: in every state, a message whose decoded id equals `connectionID` is
handled by the response branch whatever its method: its `Result` is
dereferenced (a panic with no call made when it is nil) and passed to
`SetRemoteDescription`, `connectionID` is unchanged, and every call made is
that `SetRemoteDescription`; none is a call of the offer branch
(`CreateAnswer`, `SetLocalDescription`, a write) or of the trickle branch
(`AddICECandidate`). -/
theorem id_match_before_method (s : State) (f : Frame) (e : Env)
    (hid : f.response.Id = s.connectionID) :
    handleMessage s f e
      = (match f.response.Result with
        | none => { state := s, calls := [], status := Status.panicked }
        | some R =>
          { state := s
            calls := [Call.SetRemoteDescription R]
            status := fatalIf e.setRemoteDescriptionErr }) ∧
    ∀ c ∈ (handleMessage s f e).calls,
      ∃ R, f.response.Result = some R ∧ c = Call.SetRemoteDescription R := by
  cases hres : f.response.Result with
  | none => simp [handleMessage, hid, hres]
  | some R => simp [handleMessage, hid, hres]

/-- C10 at a trickle message without an id while `connectionID` is 0. -/
theorem id_match_before_method_witness :
    (trickleFrame "candidate:1").response.Id = (⟨0⟩ : State).connectionID ∧
    (handleMessage ⟨0⟩ (trickleFrame "candidate:1") quietEnv
      = (match (trickleFrame "candidate:1").response.Result with
        | none => { state := ⟨0⟩, calls := [], status := Status.panicked }
        | some R =>
          { state := ⟨0⟩
            calls := [Call.SetRemoteDescription R]
            status := fatalIf quietEnv.setRemoteDescriptionErr }) ∧
    ∀ c ∈ (handleMessage ⟨0⟩ (trickleFrame "candidate:1") quietEnv).calls,
      ∃ R, (trickleFrame "candidate:1").response.Result = some R ∧
        c = Call.SetRemoteDescription R) :=
  ⟨by decide, id_match_before_method ⟨0⟩ (trickleFrame "candidate:1") quietEnv (by decide)⟩

end Wave
